import Mathlib

/-!
Verification of the surface-lifecycle and frame-loop core of a minimal
wgpu/winit graphics host (`src/main.rs`).

The Rust program is shallowly embedded: the pure decision logic (format
selection, resize guard, event dispatch, render-pass recording) is
translated into executable Lean definitions, while the platform and
driver collaborators (window creation, adapter/device negotiation,
surface acquisition) are modelled as inputs.  GPU side effects (surface
configuration calls, queue submissions, frame presentation) are made
observable as explicit traces.  A Rust `panic!`/`unwrap` is modelled by
`Option`/`none`; `winit`'s `event_loop.exit()` is modelled by a boolean
exit flag in the handler's result.
-/

namespace Wgpu

/-! ### Windowing data model (winit collaborator) -/

/-- `winit::dpi::PhysicalSize<u32>`: width and height in physical pixels. -/
structure PhysicalSize where
  width : Nat
  height : Nat
deriving DecidableEq, Repr

/-- `winit::dpi::LogicalSize`: width and height in logical units.  The source
only ever uses the integer literals 1280 and 720, so the fields are `Nat`. -/
structure LogicalSize where
  width : Nat
  height : Nat
deriving DecidableEq, Repr

/-- `winit::dpi::Size`: either a physical or a logical size. -/
inductive Size
  | Physical (size : PhysicalSize)
  | Logical (size : LogicalSize)
deriving DecidableEq, Repr

/-- `winit::dpi::Size::to_physical(scale)`: a physical size is returned
unchanged; a logical size is scaled.  The source calls this only with a
scale factor of `1.0`, for which the scaling is exact on integers. -/
def Size.to_physical (s : Size) (scale : Nat) : PhysicalSize :=
  match s with
  | .Physical size => size
  | .Logical size => ⟨size.width * scale, size.height * scale⟩

/-- `winit::event::ElementState`. -/
inductive ElementState
  | Pressed
  | Released
deriving DecidableEq, Repr

/-- `winit::keyboard::KeyCode`: the source only distinguishes `Escape`;
every other code is collapsed into one constructor carrying a tag. -/
inductive KeyCode
  | Escape
  | OtherCode (tag : Nat)
deriving DecidableEq, Repr

/-- `winit::keyboard::PhysicalKey`. -/
inductive PhysicalKey
  | Code (code : KeyCode)
  | Unidentified (tag : Nat)
deriving DecidableEq, Repr

/-- `winit::event::KeyEvent` restricted to the fields the program can observe:
`state`, `physical_key` and `repeat` (the handler's pattern binds the first
two and ignores the rest with `..`).  `repeat` is a Lean keyword, hence the
field name `repeat_flag`. -/
structure KeyEvent where
  state : ElementState
  physical_key : PhysicalKey
  repeat_flag : Bool
deriving DecidableEq, Repr

/-- `winit::event::WindowEvent`, restricted to the variants the handler's
`match` names; every other variant is collapsed into `OtherEvent`. -/
inductive WindowEvent
  | CloseRequested
  | KeyboardInput (event : KeyEvent)
  | Resized (inner_size : PhysicalSize)
  | RedrawRequested
  | OtherEvent (tag : Nat)
deriving DecidableEq, Repr

/-- `winit::window::WindowButtons` bitflags as three booleans. -/
structure WindowButtons where
  close : Bool
  minimize : Bool
  maximize : Bool
deriving DecidableEq, Repr

/-- `WindowButtons::CLOSE`. -/
def WindowButtons.CLOSE : WindowButtons := ⟨true, false, false⟩

/-- `WindowButtons::ALL` (the winit default). -/
def WindowButtons.ALL : WindowButtons := ⟨true, true, true⟩

/-- The window attributes the program configures
(`winit::window::WindowAttributes`, restricted to the four fields the
source sets). -/
structure WindowAttributes where
  title : String
  resizable : Bool
  enabled_buttons : WindowButtons
  inner_size : Option Size
deriving DecidableEq, Repr

/-- `Window::default_attributes()`: winit's defaults for the four modelled
fields (title "winit window", resizable, all buttons, no explicit size). -/
def Window.default_attributes : WindowAttributes :=
  { title := "winit window", resizable := true,
    enabled_buttons := WindowButtons.ALL, inner_size := none }

/-- Builder `with_title`. -/
def WindowAttributes.with_title (a : WindowAttributes) (t : String) : WindowAttributes :=
  { a with title := t }

/-- Builder `with_resizable`. -/
def WindowAttributes.with_resizable (a : WindowAttributes) (r : Bool) : WindowAttributes :=
  { a with resizable := r }

/-- Builder `with_enabled_buttons`. -/
def WindowAttributes.with_enabled_buttons (a : WindowAttributes) (b : WindowButtons) : WindowAttributes :=
  { a with enabled_buttons := b }

/-- Builder `with_inner_size`. -/
def WindowAttributes.with_inner_size (a : WindowAttributes) (s : Size) : WindowAttributes :=
  { a with inner_size := some s }

/-- A created window.  Only its identity is observable to the event handler
(`window.id()`); creation itself is performed by the platform. -/
structure Window where
  id : Nat
deriving DecidableEq, Repr

/-! ### GPU data model (wgpu collaborator) -/

/-- A texture format as the program observes it: an identity plus its
`is_srgb()` flag. -/
structure TextureFormat where
  id : Nat
  is_srgb : Bool
deriving DecidableEq, Repr

/-- `wgpu::PresentMode`. -/
inductive PresentMode
  | AutoVsync
  | AutoNoVsync
  | Fifo
  | FifoRelaxed
  | Immediate
  | Mailbox
deriving DecidableEq, Repr

/-- `wgpu::CompositeAlphaMode`. -/
inductive CompositeAlphaMode
  | Auto
  | Opaque
  | PreMultiplied
  | PostMultiplied
  | Inherit
deriving DecidableEq, Repr

/-- `wgpu::TextureUsages` as a raw bitflag value; `RENDER_ATTACHMENT` is
bit 4 (value 16). -/
structure TextureUsages where
  bits : Nat
deriving DecidableEq, Repr

/-- `TextureUsages::RENDER_ATTACHMENT`. -/
def TextureUsages.RENDER_ATTACHMENT : TextureUsages := ⟨16⟩

/-- `wgpu::SurfaceConfiguration`, fields in the order of the literal in
`State::new`. -/
structure SurfaceConfiguration where
  width : Nat
  height : Nat
  present_mode : PresentMode
  alpha_mode : CompositeAlphaMode
  format : TextureFormat
  view_formats : List TextureFormat
  desired_maximum_frame_latency : Nat
  usage : TextureUsages
deriving DecidableEq, Repr

/-- An opaque logical device handle. -/
structure Device where
  id : Nat
deriving DecidableEq, Repr

/-- An opaque command-queue handle. -/
structure Queue where
  id : Nat
deriving DecidableEq, Repr

/-- One `surface.configure(&device, &config)` call, as recorded on the
surface. -/
structure ConfigureCall where
  device : Device
  config : SurfaceConfiguration
deriving DecidableEq, Repr

/-- A surface.  The chronological list of `configure` calls applied to it is
kept observable so that theorems can state whether (and with what) the
surface has been configured. -/
structure Surface where
  id : Nat
  history : List ConfigureCall
deriving DecidableEq, Repr

/-- `wgpu::Surface::configure`: applies a configuration (recorded as an
observable effect). -/
def Surface.configure (s : Surface) (device : Device) (config : SurfaceConfiguration) : Surface :=
  { s with history := s.history ++ [⟨device, config⟩] }

/-- The capabilities `surface.get_capabilities(&adapter)` reports: the
driver-ordered format and alpha-mode lists. -/
structure SurfaceCapabilities where
  formats : List TextureFormat
  alpha_modes : List CompositeAlphaMode
deriving DecidableEq, Repr

/-- A texture of an acquired frame. -/
structure Texture where
  id : Nat
deriving DecidableEq, Repr

/-- A texture view; `create_view` with the default descriptor yields the
canonical view of its texture. -/
structure TextureView where
  texture : Texture
deriving DecidableEq, Repr

/-- `Texture::create_view(&TextureViewDescriptor::default())`. -/
def Texture.create_view (t : Texture) : TextureView := ⟨t⟩

/-- `wgpu::SurfaceTexture`: one acquired, not-yet-presented frame (the spec's
FrameTicket). -/
structure SurfaceTexture where
  texture : Texture
deriving DecidableEq, Repr

/-- `wgpu::SurfaceError` (the variants of the wgpu release the source is
written against). -/
inductive SurfaceError
  | Timeout
  | Outdated
  | Lost
  | OutOfMemory
deriving DecidableEq, Repr

/-- `wgpu::Color` with the literal field values kept exact as rationals. -/
structure Color where
  r : ℚ
  g : ℚ
  b : ℚ
  a : ℚ
deriving DecidableEq, Repr

/-- `wgpu::LoadOp`. -/
inductive LoadOp
  | Clear (color : Color)
  | Load
deriving DecidableEq, Repr

/-- `wgpu::StoreOp`. -/
inductive StoreOp
  | Store
  | Discard
deriving DecidableEq, Repr

/-- `wgpu::RenderPassColorAttachment` (the `ops` pair inlined). -/
structure RenderPassColorAttachment where
  view : TextureView
  resolve_target : Option TextureView
  load : LoadOp
  store : StoreOp
deriving DecidableEq, Repr

/-- `wgpu::RenderPassDescriptor`, restricted to the fields the source sets
to non-`None` values plus the label. -/
structure RenderPassDescriptor where
  label : Option String
  color_attachments : List (Option RenderPassColorAttachment)
deriving DecidableEq, Repr

/-- A command encoder: its label and the render passes recorded so far, in
order. -/
structure CommandEncoder where
  label : Option String
  passes : List RenderPassDescriptor
deriving DecidableEq, Repr

/-- `Device::create_command_encoder`. -/
def Device.create_command_encoder (_d : Device) (label : Option String) : CommandEncoder :=
  { label := label, passes := [] }

/-- `CommandEncoder::begin_render_pass`: records one render pass on the
encoder.  (The returned `RenderPass` object is dropped immediately by the
source, ending the pass; no draw commands are issued inside it.) -/
def CommandEncoder.begin_render_pass (e : CommandEncoder) (desc : RenderPassDescriptor) : CommandEncoder :=
  { e with passes := e.passes ++ [desc] }

/-- A finished command buffer. -/
structure CommandBuffer where
  passes : List RenderPassDescriptor
deriving DecidableEq, Repr

/-- `CommandEncoder::finish`. -/
def CommandEncoder.finish (e : CommandEncoder) : CommandBuffer :=
  ⟨e.passes⟩

/-- An observable action on the GPU queue / surface presentation engine, in
program order. -/
inductive QueueEvent
  | submit (buffers : List CommandBuffer)
  | present (frame : SurfaceTexture)
deriving DecidableEq, Repr

/-- Whether a queue event is a presentation. -/
def QueueEvent.isPresent : QueueEvent → Bool
  | .present _ => true
  | _ => false

/-- Whether a queue event is a submission. -/
def QueueEvent.isSubmit : QueueEvent → Bool
  | .submit _ => true
  | _ => false

/-! ### State (the GraphicsContext) -/

/-- `struct State` from `src/main.rs`: the surface, device, queue, current
surface configuration and cached window size. -/
structure State where
  surface : Surface
  device : Device
  queue : Queue
  config : SurfaceConfiguration
  size : Size
deriving DecidableEq, Repr

/-- The surface-format selection inside `State::new`:

    surface_capabilities.formats.iter().copied()
        .filter(|s| s.is_srgb()).next()
        .unwrap_or(surface_capabilities.formats[0])

`unwrap_or`'s argument is evaluated eagerly, so `formats[0]` is indexed
whenever this line runs; on an empty list that indexing panics, modelled
here by `none`. -/
def selectSurfaceFormat (formats : List TextureFormat) : Option TextureFormat :=
  match formats[0]? with
  | none => none
  | some format0 =>
    some (((formats.filter fun s => s.is_srgb).head?).getD format0)

/-- `State::new`.  The suspending collaborator steps (instance creation,
surface creation, adapter request, device/queue request, capability query)
are external; their results — the surface, device, queue, the window's
inner size and the reported capabilities — are taken as inputs.  The
modelled tail is the format selection, the configuration literal and the
returned struct.  `none` models a panic (empty format list, or empty
alpha-mode list indexed by `alpha_modes[0]`).  Note the function only
*builds* `config`; no `surface.configure` call occurs here. -/
def State.new (surface : Surface) (device : Device) (queue : Queue)
    (size : PhysicalSize) (surface_capabilities : SurfaceCapabilities) : Option State :=
  match selectSurfaceFormat surface_capabilities.formats with
  | none => none
  | some surface_format =>
    match surface_capabilities.alpha_modes[0]? with
    | none => none
    | some alpha_mode0 =>
      let config : SurfaceConfiguration :=
        { width := size.width
          height := size.height
          present_mode := PresentMode.Fifo
          alpha_mode := alpha_mode0
          format := surface_format
          view_formats := []
          desired_maximum_frame_latency := 2
          usage := TextureUsages.RENDER_ATTACHMENT }
      some { size := Size.Physical size, config := config,
             device := device, queue := queue, surface := surface }

/-- `State::resize`: guarded on either dimension being `<= 0` (on `u32`
this means `= 0`); otherwise updates the cached size, patches the
configuration's dimensions and re-applies it to the surface. -/
def State.resize (st : State) (size : PhysicalSize) : State :=
  if size.width ≤ 0 ∨ size.height ≤ 0 then
    st
  else
    let config := { st.config with width := size.width, height := size.height }
    { st with size := Size.Physical size, config := config,
              surface := st.surface.configure st.device config }

/-- `State::input`: the content hook; returns the (unchanged, since the Rust
body touches nothing through `&mut self`) state and the `false` it returns. -/
def State.input (st : State) (_event : WindowEvent) : State × Bool :=
  (st, false)

/-- `State::update`: empty body. -/
def State.update (st : State) : State :=
  st

/-- `State::render`.  Surface acquisition (`get_current_texture`) is the
driver's act, so its outcome is an input; the `?` operator's propagation is
the `error` branch.  On success the function records one command encoder
with one render pass clearing the frame's view, then submits the finished
buffer and presents the frame; the returned trace lists those queue/present
actions in program order. -/
def State.render (st : State) (acquired : Except SurfaceError SurfaceTexture) :
    Except SurfaceError (State × List QueueEvent) :=
  match acquired with
  | .error e => .error e
  | .ok output =>
    let view := output.texture.create_view
    let encoder := st.device.create_command_encoder (some "WGPU Render Command Encoder")
    let encoder := encoder.begin_render_pass
      { label := some "WGPU Render Pass"
        color_attachments :=
          [some { view := view
                  resolve_target := none
                  load := LoadOp.Clear ⟨0.2, 0.2, 0.2, 1.0⟩
                  store := StoreOp.Store }] }
    .ok (st, [QueueEvent.submit [encoder.finish], QueueEvent.present output])

/-! ### App (the ApplicationHost) -/

/-- `struct App`: optional window and graphics state (populated on
`resumed`), plus the default window size. -/
structure App where
  window : Option Window
  state : Option State
  size : Size
deriving DecidableEq, Repr

/-- `App::default()`: no window, no state, logical 1280 by 720. -/
def App.default : App :=
  { window := none, state := none, size := Size.Logical ⟨1280, 720⟩ }

/-- The `WindowAttributes` value `App::resumed` passes to
`event_loop.create_window`: the winit defaults with title, resizable,
enabled buttons and inner size overridden.  Window creation itself is the
platform's act and is not modelled. -/
def App.resumed_attributes (app : App) : WindowAttributes :=
  ((((Window.default_attributes).with_title "[WGPU] Logic Game").with_resizable
      false).with_enabled_buttons WindowButtons.CLOSE).with_inner_size app.size

/-- The observable outcome of one `window_event` dispatch: the app
afterwards, whether `event_loop.exit()` was called, the GPU queue/present
actions of the tick, and the surface errors printed by `eprintln!`. -/
structure HostResult where
  app : App
  exit : Bool
  gpu : List QueueEvent
  logs : List SurfaceError
deriving DecidableEq, Repr

/-- The `match event` block of `App::window_event` (default handling, after
the interception check).  `acquired` is the surface-acquisition outcome the
driver would report if this dispatch reaches `State::render`.  `none`
models an `unwrap` panic on a missing state. -/
def App.defaultHandle (app : App) (event : WindowEvent)
    (acquired : Except SurfaceError SurfaceTexture) : Option HostResult :=
  match event with
  | .CloseRequested
  | .KeyboardInput ⟨.Pressed, .Code .Escape, _⟩ =>
    some { app := app, exit := true, gpu := [], logs := [] }
  | .Resized inner_size =>
    match app.state with
    | none => none
    | some st =>
      some { app := { app with state := some (st.resize inner_size) },
             exit := false, gpu := [], logs := [] }
  | .RedrawRequested =>
    match app.state with
    | none => none
    | some st =>
      let st := st.update
      match st.render acquired with
      | .ok (st2, gpu) =>
        some { app := { app with state := some st2 }, exit := false,
               gpu := gpu, logs := [] }
      | .error .Lost =>
        some { app := { app with state := some (st.resize (st.size.to_physical 1)) },
               exit := false, gpu := [], logs := [] }
      | .error .OutOfMemory =>
        some { app := app, exit := true, gpu := [], logs := [] }
      | .error e =>
        some { app := app, exit := false, gpu := [], logs := [e] }
  | _ =>
    some { app := app, exit := false, gpu := [], logs := [] }

/-- `App::window_event`: ignores events for a foreign window id, lets the
`State::input` hook intercept, then falls through to default handling.
`none` models an `unwrap` panic (missing window or state). -/
def App.window_event (app : App) (window_id : Nat) (event : WindowEvent)
    (acquired : Except SurfaceError SurfaceTexture) : Option HostResult :=
  match app.window with
  | none => none
  | some window =>
    if window_id ≠ window.id then
      some { app := app, exit := false, gpu := [], logs := [] }
    else
      match app.state with
      | none => none
      | some st =>
        let (st2, handled) := st.input event
        let app2 : App := { app with state := some st2 }
        if handled then
          some { app := app2, exit := false, gpu := [], logs := [] }
        else
          app2.defaultHandle event acquired

/-! ### Concrete fixtures for witnesses and counterexamples -/

/-- A concrete sRGB texture format. -/
def testFormat : TextureFormat := ⟨0, true⟩

/-- A concrete surface configuration. -/
def testConfig : SurfaceConfiguration :=
  { width := 1280, height := 720, present_mode := PresentMode.Fifo,
    alpha_mode := CompositeAlphaMode.Opaque, format := testFormat,
    view_formats := [], desired_maximum_frame_latency := 2,
    usage := TextureUsages.RENDER_ATTACHMENT }

/-- A concrete surface with no configuration applied yet. -/
def testSurface : Surface := ⟨0, []⟩

/-- A concrete device handle. -/
def testDevice : Device := ⟨0⟩

/-- A concrete queue handle. -/
def testQueue : Queue := ⟨0⟩

/-- A concrete graphics state. -/
def testState : State :=
  { surface := testSurface, device := testDevice, queue := testQueue,
    config := testConfig, size := Size.Physical ⟨1280, 720⟩ }

/-- A concrete window. -/
def testWindow : Window := ⟨0⟩

/-- A concrete running app (window and state populated). -/
def testApp : App :=
  { window := some testWindow, state := some testState,
    size := Size.Logical ⟨1280, 720⟩ }

/-! ### Helper lemmas -/

/-- The head of a filtered list is the first element satisfying the
predicate. -/
theorem head?_filter {α : Type} (p : α → Bool) (l : List α) :
    (l.filter p).head? = l.find? p := by
  induction l with
  | nil => rfl
  | cons a l ih =>
    by_cases h : p a <;> simp [List.filter_cons, List.find?_cons, h, ih]

/-! ### Claims -/

/-- Claim C5: for every state and every new size with width = 0 or
height = 0, `State::resize` is a no-op — the cached size, the entire
surface configuration and all other fields are unchanged, and no
`configure` call is applied to the surface (the whole state, its
configure history included, is equal to the old one). -/
theorem C5_resize_zero_noop (st : State) (size : PhysicalSize)
    (h : size.width = 0 ∨ size.height = 0) :
    State.resize st size = st := by
  unfold State.resize
  rcases h with h | h <;> simp [h]

/-- Witness for C5 at a concrete state and the size 0 by 600. -/
theorem C5_witness :
    ((0 : Nat) = 0 ∨ (600 : Nat) = 0) ∧ State.resize testState ⟨0, 600⟩ = testState :=
  ⟨Or.inl rfl, C5_resize_zero_noop testState ⟨0, 600⟩ (Or.inl rfl)⟩

/-- Claim C6: for every state and every new size with positive width and
height, `State::resize` updates the cached size, patches the
configuration's width and height, appends exactly one `configure` call
with the patched configuration to the surface, and leaves every other
configuration field and every other state field unchanged. -/
theorem C6_resize_positive (st : State) (size : PhysicalSize)
    (hw : 0 < size.width) (hh : 0 < size.height) :
    (st.resize size).size = Size.Physical size ∧
    (st.resize size).config.width = size.width ∧
    (st.resize size).config.height = size.height ∧
    (st.resize size).config.format = st.config.format ∧
    (st.resize size).config.present_mode = st.config.present_mode ∧
    (st.resize size).config.alpha_mode = st.config.alpha_mode ∧
    (st.resize size).config.view_formats = st.config.view_formats ∧
    (st.resize size).config.desired_maximum_frame_latency
      = st.config.desired_maximum_frame_latency ∧
    (st.resize size).config.usage = st.config.usage ∧
    (st.resize size).device = st.device ∧
    (st.resize size).queue = st.queue ∧
    (st.resize size).surface.id = st.surface.id ∧
    (st.resize size).surface.history = st.surface.history ++
      [⟨st.device, { st.config with width := size.width, height := size.height }⟩] := by
  have hcond : ¬(size.width ≤ 0 ∨ size.height ≤ 0) := by omega
  unfold State.resize
  rw [if_neg hcond]
  exact ⟨rfl, rfl, rfl, rfl, rfl, rfl, rfl, rfl, rfl, rfl, rfl, rfl, rfl⟩

/-- Witness for C6 at a concrete state and the size 800 by 600. -/
theorem C6_witness :
    0 < (800 : Nat) ∧ 0 < (600 : Nat) ∧
    (State.resize testState ⟨800, 600⟩).config.width = 800 ∧
    (State.resize testState ⟨800, 600⟩).surface.history = testSurface.history ++
      [⟨testDevice, { testConfig with width := 800, height := 600 }⟩] := by
  have h := C6_resize_positive testState ⟨800, 600⟩ (by decide) (by decide)
  exact ⟨by decide, by decide, h.2.1, h.2.2.2.2.2.2.2.2.2.2.2.2⟩

/-- Claim C8: the window the `resumed` handler creates is configured with a
title string, resizable `false`, enabled system buttons restricted to close
only, and the host's default logical size of 1280 by 720. -/
theorem C8_window_attributes :
    App.resumed_attributes App.default =
      { title := "[WGPU] Logic Game", resizable := false,
        enabled_buttons := WindowButtons.CLOSE,
        inner_size := some (Size.Logical ⟨1280, 720⟩) } := rfl

/-- Claim C9: the content hook `State::input` returns `false` and leaves
the state unchanged on every event, so the early-return interception
branch of `App::window_event` is never taken and every event (for the
app's own window) reaches default handling. -/
theorem C9_input_hook_inert (st : State) (event : WindowEvent) (w : Window)
    (sz : Size) (acquired : Except SurfaceError SurfaceTexture) :
    State.input st event = (st, false) ∧
    App.window_event ⟨some w, some st, sz⟩ w.id event acquired =
      App.defaultHandle ⟨some w, some st, sz⟩ event acquired := by
  refine ⟨rfl, ?_⟩
  simp [App.window_event, State.input]

/-- Claim C10: the fallback of the format selection indexes element 0 of
the reported list, so selection is total exactly on non-empty lists; with
an empty format list `State::new` panics (modelled by `none`) instead of
returning an error. -/
theorem C10_empty_formats_panic :
    selectSurfaceFormat [] = none ∧
    (∀ formats : List TextureFormat, formats ≠ [] →
      ∃ f, selectSurfaceFormat formats = some f) ∧
    (∀ (surface : Surface) (device : Device) (queue : Queue)
        (size : PhysicalSize) (alpha_modes : List CompositeAlphaMode),
      State.new surface device queue size ⟨[], alpha_modes⟩ = none) := by
  refine ⟨rfl, ?_, ?_⟩
  · intro formats h
    match formats with
    | f0 :: rest =>
      exact ⟨((f0 :: rest).find? fun s => s.is_srgb).getD f0,
        by simp [selectSurfaceFormat]⟩
    | [] => exact absurd rfl h
  · intro surface device queue size alpha_modes
    rfl

/-- Witness for C10: a concrete non-empty list yields a format, and a
concrete `State::new` call with an empty format list panics. -/
theorem C10_witness :
    ([⟨7, false⟩] : List TextureFormat) ≠ [] ∧
    (∃ f, selectSurfaceFormat [⟨7, false⟩] = some f) ∧
    State.new testSurface testDevice testQueue ⟨1280, 720⟩
      ⟨[], [CompositeAlphaMode.Opaque]⟩ = none :=
  ⟨by decide,
   C10_empty_formats_panic.2.1 [⟨7, false⟩] (by decide),
   C10_empty_formats_panic.2.2 testSurface testDevice testQueue ⟨1280, 720⟩
     [CompositeAlphaMode.Opaque]⟩

/-- Claim C4: on every non-empty reported format list the selected format
is the first element flagged as sRGB, or the first element of the list if
none is so flagged; the selection is a pure function of the list, so
re-running it yields the same result. -/
theorem C4_format_selection (formats : List TextureFormat)
    (format0 : TextureFormat) (rest : List TextureFormat)
    (h : formats = format0 :: rest) :
    selectSurfaceFormat formats =
      some ((formats.find? fun s => s.is_srgb).getD format0) ∧
    selectSurfaceFormat formats = selectSurfaceFormat formats := by
  subst h
  refine ⟨?_, rfl⟩
  unfold selectSurfaceFormat
  simp [head?_filter]

/-- A concrete capability report: one sRGB format, one alpha mode. -/
def testCaps : SurfaceCapabilities := ⟨[testFormat], [CompositeAlphaMode.Opaque]⟩

/-- Modelled from the spec's description of `submitFrame`, for comparison
with `State.render`: one command sequence consisting of exactly one render
pass targeting the ticket's view, clearing it to (0.2, 0.2, 0.2, 1.0) with
store enabled, submitted to the queue and followed by one presentation of
the ticket. -/
def specSubmitFrameTrace (frame : SurfaceTexture) : List QueueEvent :=
  [QueueEvent.submit
     [⟨[{ label := some "WGPU Render Pass"
          color_attachments :=
            [some { view := frame.texture.create_view
                    resolve_target := none
                    load := LoadOp.Clear ⟨0.2, 0.2, 0.2, 1.0⟩
                    store := StoreOp.Store }] }]⟩],
   QueueEvent.present frame]

/-- Claim C7: every successful render produces exactly the spec's
submit-then-present trace — one submission of one command buffer holding
one render pass on the acquired frame's view, clearing to
(0.2, 0.2, 0.2, 1.0) with store enabled, followed by exactly one
presentation of that frame — and leaves the state unchanged. -/
theorem C7_render_success (st : State) (frame : SurfaceTexture) :
    State.render st (.ok frame) = .ok (st, specSubmitFrameTrace frame) ∧
    (specSubmitFrameTrace frame).countP (fun e => e.isPresent) = 1 ∧
    (specSubmitFrameTrace frame).countP (fun e => e.isSubmit) = 1 ∧
    (specSubmitFrameTrace frame).getLast? = some (QueueEvent.present frame) := by
  refine ⟨rfl, ?_, ?_, rfl⟩ <;>
    simp [specSubmitFrameTrace, List.countP_cons, QueueEvent.isPresent,
      QueueEvent.isSubmit]

/-- Counterexample to claim C3 as stated: at concrete inputs, `State::new`
returns a state whose configuration carries the claimed values, but whose
surface has an empty configure history — no configuration has been applied
to the surface during creation, contradicting "after creation returns, the
surface has been configured with exactly these values". -/
theorem C3_counterexample :
    (State.new testSurface testDevice testQueue ⟨1280, 720⟩ testCaps).map
        (fun st => st.surface.history) = some [] ∧
    (State.new testSurface testDevice testQueue ⟨1280, 720⟩ testCaps).map
        (fun st => st.config) = some testConfig := by
  exact ⟨rfl, rfl⟩

/-- Claim C3 (amended): `State::new` builds — in the returned state's
`config` field, without applying it to the surface — a configuration whose
width and height are the window's size, whose format is the selected
format, whose presentation mode is FIFO, whose alpha mode is the first
reported alpha mode and whose desired maximum frame latency is 2; the
surface is returned exactly as it came (it is first configured by the
first successful `resize`). -/
theorem C3_amended_new_builds_config (surface : Surface) (device : Device)
    (queue : Queue) (size : PhysicalSize) (caps : SurfaceCapabilities)
    (format0 : TextureFormat) (frest : List TextureFormat)
    (alpha0 : CompositeAlphaMode) (arest : List CompositeAlphaMode)
    (hf : caps.formats = format0 :: frest)
    (ha : caps.alpha_modes = alpha0 :: arest) :
    ∃ st : State,
      State.new surface device queue size caps = some st ∧
      st.config = { width := size.width, height := size.height,
                    present_mode := PresentMode.Fifo, alpha_mode := alpha0,
                    format := (caps.formats.find? fun s => s.is_srgb).getD format0,
                    view_formats := [], desired_maximum_frame_latency := 2,
                    usage := TextureUsages.RENDER_ATTACHMENT } ∧
      st.surface = surface ∧
      st.size = Size.Physical size ∧
      st.device = device ∧
      st.queue = queue := by
  obtain ⟨formats, alpha_modes⟩ := caps
  simp only at hf ha
  subst hf ha
  refine ⟨{ size := Size.Physical size,
            config := { width := size.width, height := size.height,
                        present_mode := PresentMode.Fifo, alpha_mode := alpha0,
                        format := (((format0 :: frest).filter
                          fun s => s.is_srgb).head?).getD format0,
                        view_formats := [], desired_maximum_frame_latency := 2,
                        usage := TextureUsages.RENDER_ATTACHMENT },
            device := device, queue := queue, surface := surface },
          ?_, ?_, rfl, rfl, rfl, rfl⟩
  · simp [State.new, selectSurfaceFormat]
  · simp [head?_filter]

/-- Witness for the amended C3 at concrete inputs. -/
theorem C3_witness :
    testCaps.formats = testFormat :: [] ∧
    testCaps.alpha_modes = CompositeAlphaMode.Opaque :: [] ∧
    ∃ st : State,
      State.new testSurface testDevice testQueue ⟨1280, 720⟩ testCaps = some st ∧
      st.surface = testSurface := by
  refine ⟨rfl, rfl, ?_⟩
  obtain ⟨st, h1, _, h3, _⟩ := C3_amended_new_builds_config testSurface
    testDevice testQueue ⟨1280, 720⟩ testCaps testFormat []
    CompositeAlphaMode.Opaque [] rfl rfl
  exact ⟨st, h1, h3⟩

/-- Claim C1: on a redraw tick, a surface-lost acquisition makes the
handler resize with the last known good size (which re-applies the surface
configuration) and present nothing; out-of-device-memory makes it signal
the event loop to exit; any other acquisition error (timeout, outdated) is
logged and the frame is skipped; and in every error case the handler
returns normally (totality — no error propagates out) with an empty GPU
trace, so no frame is presented. -/
theorem C1_redraw_error_handling (w : Window) (st : State) (sz : Size) :
    (App.window_event ⟨some w, some st, sz⟩ w.id WindowEvent.RedrawRequested
        (.error SurfaceError.Lost) =
      some { app := ⟨some w, some (st.resize (st.size.to_physical 1)), sz⟩,
             exit := false, gpu := [], logs := [] }) ∧
    (App.window_event ⟨some w, some st, sz⟩ w.id WindowEvent.RedrawRequested
        (.error SurfaceError.OutOfMemory) =
      some { app := ⟨some w, some st, sz⟩, exit := true, gpu := [], logs := [] }) ∧
    (App.window_event ⟨some w, some st, sz⟩ w.id WindowEvent.RedrawRequested
        (.error SurfaceError.Timeout) =
      some { app := ⟨some w, some st, sz⟩, exit := false, gpu := [],
             logs := [SurfaceError.Timeout] }) ∧
    (App.window_event ⟨some w, some st, sz⟩ w.id WindowEvent.RedrawRequested
        (.error SurfaceError.Outdated) =
      some { app := ⟨some w, some st, sz⟩, exit := false, gpu := [],
             logs := [SurfaceError.Outdated] }) ∧
    (∀ e : SurfaceError, ∃ r : HostResult,
      App.window_event ⟨some w, some st, sz⟩ w.id WindowEvent.RedrawRequested
        (.error e) = some r ∧ r.gpu = []) := by
  have hLost : App.window_event ⟨some w, some st, sz⟩ w.id
      WindowEvent.RedrawRequested (.error SurfaceError.Lost) =
      some { app := ⟨some w, some (st.resize (st.size.to_physical 1)), sz⟩,
             exit := false, gpu := [], logs := [] } := by
    simp [App.window_event, App.defaultHandle, State.input, State.update,
      State.render]
  have hOom : App.window_event ⟨some w, some st, sz⟩ w.id
      WindowEvent.RedrawRequested (.error SurfaceError.OutOfMemory) =
      some { app := ⟨some w, some st, sz⟩, exit := true, gpu := [], logs := [] } := by
    simp [App.window_event, App.defaultHandle, State.input, State.update,
      State.render]
  have hTimeout : App.window_event ⟨some w, some st, sz⟩ w.id
      WindowEvent.RedrawRequested (.error SurfaceError.Timeout) =
      some { app := ⟨some w, some st, sz⟩, exit := false, gpu := [],
             logs := [SurfaceError.Timeout] } := by
    simp [App.window_event, App.defaultHandle, State.input, State.update,
      State.render]
  have hOutdated : App.window_event ⟨some w, some st, sz⟩ w.id
      WindowEvent.RedrawRequested (.error SurfaceError.Outdated) =
      some { app := ⟨some w, some st, sz⟩, exit := false, gpu := [],
             logs := [SurfaceError.Outdated] } := by
    simp [App.window_event, App.defaultHandle, State.input, State.update,
      State.render]
  refine ⟨hLost, hOom, hTimeout, hOutdated, ?_⟩
  intro e
  cases e with
  | Timeout => exact ⟨_, hTimeout, rfl⟩
  | Outdated => exact ⟨_, hOutdated, rfl⟩
  | Lost => exact ⟨_, hLost, rfl⟩
  | OutOfMemory => exact ⟨_, hOom, rfl⟩

/-- Counterexample to claim C2 as stated: an Escape keyboard event in the
pressed state with `repeat = true` still exits the application — the
handler's pattern ignores the repeat flag — contradicting "an Escape event
with repeat=true ... does not exit". -/
theorem C2_counterexample :
    App.window_event testApp testWindow.id
      (WindowEvent.KeyboardInput
        ⟨ElementState.Pressed, PhysicalKey.Code KeyCode.Escape, true⟩)
      (.error SurfaceError.Timeout) =
    some { app := testApp, exit := true, gpu := [], logs := [] } := rfl

/-- Claim C2 (amended): for every event other than a redraw tick, default
handling exits exactly on a close-requested event or a keyboard-input
event whose physical key is Escape in the pressed state — regardless of
the repeat flag; a released Escape and every other event do not exit.
(The redraw tick is excluded: it exits separately when acquisition
reports out-of-device-memory.) -/
theorem C2_amended_exit_triggers (w : Window) (st : State) (sz : Size)
    (event : WindowEvent) (acquired : Except SurfaceError SurfaceTexture)
    (h : event ≠ WindowEvent.RedrawRequested) :
    ∃ r : HostResult,
      App.window_event ⟨some w, some st, sz⟩ w.id event acquired = some r ∧
      (r.exit = true ↔ event = WindowEvent.CloseRequested ∨
        ∃ k : KeyEvent, event = WindowEvent.KeyboardInput k ∧
          k.state = ElementState.Pressed ∧
          k.physical_key = PhysicalKey.Code KeyCode.Escape) := by
  cases event with
  | RedrawRequested => exact absurd rfl h
  | CloseRequested =>
    refine ⟨⟨⟨some w, some st, sz⟩, true, [], []⟩, ?_, ?_⟩
    · simp [App.window_event, State.input, App.defaultHandle]
    · simp
  | Resized inner_size =>
    refine ⟨⟨⟨some w, some (st.resize inner_size), sz⟩, false, [], []⟩, ?_, ?_⟩
    · simp [App.window_event, State.input, App.defaultHandle]
    · simp
  | OtherEvent tag =>
    refine ⟨⟨⟨some w, some st, sz⟩, false, [], []⟩, ?_, ?_⟩
    · simp [App.window_event, State.input, App.defaultHandle]
    · simp
  | KeyboardInput k =>
    obtain ⟨ks, kk, kr⟩ := k
    cases ks with
    | Pressed =>
      cases kk with
      | Code c =>
        cases c with
        | Escape =>
          refine ⟨⟨⟨some w, some st, sz⟩, true, [], []⟩, ?_, ?_⟩
          · simp [App.window_event, State.input, App.defaultHandle]
          · simp
        | OtherCode t =>
          refine ⟨⟨⟨some w, some st, sz⟩, false, [], []⟩, ?_, ?_⟩
          · simp [App.window_event, State.input, App.defaultHandle]
          · simp
      | Unidentified t =>
        refine ⟨⟨⟨some w, some st, sz⟩, false, [], []⟩, ?_, ?_⟩
        · simp [App.window_event, State.input, App.defaultHandle]
        · simp
    | Released =>
      cases kk with
      | Code c =>
        cases c with
        | Escape =>
          refine ⟨⟨⟨some w, some st, sz⟩, false, [], []⟩, ?_, ?_⟩
          · simp [App.window_event, State.input, App.defaultHandle]
          · simp
        | OtherCode t =>
          refine ⟨⟨⟨some w, some st, sz⟩, false, [], []⟩, ?_, ?_⟩
          · simp [App.window_event, State.input, App.defaultHandle]
          · simp
      | Unidentified t =>
        refine ⟨⟨⟨some w, some st, sz⟩, false, [], []⟩, ?_, ?_⟩
        · simp [App.window_event, State.input, App.defaultHandle]
        · simp

/-- Witness for the amended C2 at a concrete close-requested dispatch. -/
theorem C2_witness :
    WindowEvent.CloseRequested ≠ WindowEvent.RedrawRequested ∧
    ∃ r : HostResult,
      App.window_event testApp testWindow.id WindowEvent.CloseRequested
        (.error SurfaceError.Timeout) = some r ∧ r.exit = true := by
  refine ⟨by decide, ?_⟩
  obtain ⟨r, h1, h2⟩ := C2_amended_exit_triggers testWindow testState
    (Size.Logical ⟨1280, 720⟩) WindowEvent.CloseRequested
    (.error SurfaceError.Timeout) (by decide)
  exact ⟨r, h1, h2.mpr (Or.inl rfl)⟩

/-- Witness for C4: on a concrete list whose first sRGB-flagged element is
in the middle, selection picks exactly that element. -/
theorem C4_witness :
    ([⟨5, false⟩, ⟨6, true⟩, ⟨7, true⟩] : List TextureFormat)
      = ⟨5, false⟩ :: [⟨6, true⟩, ⟨7, true⟩] ∧
    selectSurfaceFormat [⟨5, false⟩, ⟨6, true⟩, ⟨7, true⟩] = some ⟨6, true⟩ := by
  refine ⟨rfl, ?_⟩
  have h := (C4_format_selection [⟨5, false⟩, ⟨6, true⟩, ⟨7, true⟩]
    ⟨5, false⟩ [⟨6, true⟩, ⟨7, true⟩] rfl).1
  rw [h]
  decide

end Wgpu
